import Mathlib

/-!
# Verification of `src/StarLinkAlert.py`

Shallow embedding of the threaded variant that actually runs under
`__main__`: the monitor loop `monitor_starlink_threaded`, the GUI-side
callbacks `show_visual_alarm_thread_safe` / `dismiss_alarm_thread_safe`,
the queue consumer `check_gui_queue`, and the fetch `get_dish_status_json`.

The GUI globals (`alarm_window`, `alarm_state`, `flash_color_index`) become
an explicit `GuiState`; the `gui_queue` becomes an explicit list of queued
callbacks; the monitor thread's locals (`dish_online_previous_state`,
`dish_status_previous`) become a `MonitorState`.  Side effects
(`display_on_screen` prints, calls to the notification sinks, queue puts)
are returned as an explicit `Output` record per step.  The health payload
type is a type parameter `π` (the JSON value returned by
`response.json()`), so theorems can quantify over arbitrary payloads.

The flashing timer (`flash_background_thread_safe`) only recolours an
existing window on a Tk timer and touches neither `alarm_state` nor which
windows exist, so it is not part of the state machine; likewise the two
startup banner prints before the loop are not modelled.

The bodies of `send_email_alert` and `send_pushbullet_alert` are *not*
present in the source file (only their call sites are); they are modelled
from the spec in a separate small development below, clearly marked.
-/

namespace StarLink

variable {π π₁ π₂ : Type}

/-- A callback enqueued on `gui_queue` by the monitor thread: either
`lambda: show_visual_alarm_thread_safe(msg)` (a raise command) or
`dismiss_alarm_thread_safe` (a lower command). -/
inductive QueuedCall where
  | showAlarm (msg : String)
  | dismissAlarm
deriving DecidableEq

/-- The GUI globals: `alarm_window` (the Toplevel, modelled by the message it
displays), `alarm_state` and `flash_color_index`.  `zombie_windows` counts
Toplevel windows whose handle was overwritten without `destroy()`: the source
only ever destroys the window currently referenced by `alarm_window`, so an
overwrite would leave a live, undismissable surface behind.  It lets us state
"never a second alarm surface" without simplifying the window bookkeeping. -/
structure GuiState where
  alarm_window : Option String
  alarm_state : Bool
  flash_color_index : Nat
  zombie_windows : Nat
deriving DecidableEq

/-- `show_visual_alarm_thread_safe(alert_message)` (src lines 242-284):
returns immediately when `alarm_state` is set, otherwise sets
`alarm_state = True`, resets `flash_color_index`, and builds a new Toplevel
which overwrites `alarm_window`.  It prints nothing. -/
def show_visual_alarm_thread_safe (alert_message : String) (g : GuiState) :
    GuiState × List String :=
  if g.alarm_state then (g, [])
  else
    ({ alarm_window := some alert_message
       alarm_state := true
       flash_color_index := 0
       zombie_windows :=
         g.zombie_windows + (if g.alarm_window.isSome then 1 else 0) }, [])

/-- `dismiss_alarm_thread_safe()` (src lines 286-292): destroys the window if
one is referenced, clears `alarm_state`, prints "Alarm dismissed.". -/
def dismiss_alarm_thread_safe (g : GuiState) : GuiState × List String :=
  ({ g with alarm_window := none, alarm_state := false }, ["Alarm dismissed."])

/-- Application of one dequeued callback. -/
def applyCall (g : GuiState) : QueuedCall → GuiState × List String
  | .showAlarm msg => show_visual_alarm_thread_safe msg g
  | .dismissAlarm => dismiss_alarm_thread_safe g

/-- `check_gui_queue()` (src lines 231-239): `get_nowait()` until
`queue.Empty`, calling each callback in FIFO order; afterwards the queue is
empty.  (The `root.after(100, ...)` reschedule is the `tick` event of the
system trace below.) -/
def check_gui_queue (g : GuiState) : List QueuedCall → GuiState × List String
  | [] => (g, [])
  | c :: rest =>
      ((check_gui_queue (applyCall g c).1 rest).1,
       (applyCall g c).2 ++ (check_gui_queue (applyCall g c).1 rest).2)

/-- One poll's probe data: `check_dish_ping` result and
`get_dish_status_json` result (src lines 313-314). -/
structure ProbeResult (π : Type) where
  reachable : Bool
  payload : Option π
deriving DecidableEq

/-- The monitor thread's loop-carried locals (src lines 308-309), initialised
to `False` / `None`. -/
structure MonitorState (π : Type) where
  dish_online_previous_state : Bool
  dish_status_previous : Option π
deriving DecidableEq

def initMonitor (π : Type) : MonitorState π :=
  { dish_online_previous_state := false, dish_status_previous := none }

/-- The observable effects of one step: console prints, invocations of the
email sink and of the push sink (title, body pairs), and callbacks put on
`gui_queue`. -/
structure Output where
  displayed : List String
  emails : List (String × String)
  pushes : List (String × String)
  queued : List QueuedCall
deriving DecidableEq

def Output.empty : Output := ⟨[], [], [], []⟩

def Output.app (o₁ o₂ : Output) : Output :=
  ⟨o₁.displayed ++ o₂.displayed, o₁.emails ++ o₂.emails,
   o₁.pushes ++ o₂.pushes, o₁.queued ++ o₂.queued⟩

/-- The body of one `while True` iteration of `monitor_starlink_threaded`
(src lines 312-338).  `alarm_state` is the value of the global read by this
cycle.  Note the `if current_dish_status:` branch (src lines 324-325) only
executes `pass`, and the payload is merely stored into
`dish_status_previous`. -/
def monitorCycle (alarm_state : Bool) (m : MonitorState π) (r : ProbeResult π) :
    MonitorState π × Output :=
  let out : Output :=
    if r.reachable then
      if !m.dish_online_previous_state then
        { displayed := ["Starlink Dish is now ONLINE."]
          emails := [("Starlink Alert", "Starlink Dish is back online!")]
          pushes := [("Starlink Online", "Your Starlink dish is now online.")]
          queued := if alarm_state then [.dismissAlarm] else [] }
      else Output.empty
    else
      if m.dish_online_previous_state then
        { displayed := ["WARNING: Starlink Dish has gone OFFLINE!"]
          emails := [("Starlink CRITICAL Alert",
            "WARNING: Starlink Dish has gone OFFLINE! Check connection or if moved.")]
          pushes := [("Starlink Offline!",
            "WARNING: Your Starlink dish has gone offline!")]
          queued := if alarm_state then [] else
            [.showAlarm "STARLINK OFFLINE! Check Dish!"] }
      else Output.empty
  ({ dish_online_previous_state := r.reachable,
     dish_status_previous := r.payload }, out)

/-- What one loop iteration is given: either the two probe results, or an
unexpected exception (message `e`) raised somewhere inside the iteration. -/
inductive CycleInput (π : Type) where
  | ok (r : ProbeResult π)
  | err (e : String)

/-- The `except Exception as e` block of `monitor_starlink_threaded`
(src lines 343-348) followed by the `finally` print (src line 350): report
via console, both sinks, and — only when no alarm is active — put a raise
callback on the queue. -/
def errorHandler (alarm_state : Bool) (e : String) : Output :=
  { displayed := ["An unexpected error occurred in monitoring: " ++ e,
                  "Background monitoring thread exiting."]
    emails := [("Starlink Monitor Error", "An unexpected error occurred: " ++ e)]
    pushes := [("Monitor Error", "An unexpected error occurred: " ++ e)]
    queued := if alarm_state then [] else
      [.showAlarm ("MONITOR ERROR: " ++ e)] }

/-- `monitor_starlink_threaded` (src lines 303-350): `try:` around the whole
`while True`.  Each list entry is one iteration's input paired with the value
of the global `alarm_state` at that moment.  An exception escapes the `while`
into the single `except` block and the function returns — the remaining
inputs are never processed.  `[]` cuts off the (infinite) loop after a finite
observed prefix.  Returns the per-iteration outputs and the final locals. -/
def monitorLoop (m : MonitorState π) :
    List (Bool × CycleInput π) → List Output × MonitorState π
  | [] => ([], m)
  | (a, .ok r) :: rest =>
      ((monitorCycle a m r).2 :: (monitorLoop (monitorCycle a m r).1 rest).1,
       (monitorLoop (monitorCycle a m r).1 rest).2)
  | (a, .err e) :: _rest => ([errorHandler a e], m)

/-- Whole-process state: GUI globals, the `gui_queue` contents, the monitor
thread's locals, plus two history ghosts recording every callback ever
enqueued and every callback ever applied, in order. -/
structure SysState (π : Type) where
  gui : GuiState
  queue : List QueuedCall
  monitor : MonitorState π
  enq_hist : List QueuedCall
  app_hist : List QueuedCall
deriving DecidableEq

def initGui : GuiState :=
  { alarm_window := none, alarm_state := false
    flash_color_index := 0, zombie_windows := 0 }

def initSys (π : Type) : SysState π :=
  { gui := initGui, queue := [], monitor := initMonitor π
    enq_hist := [], app_hist := [] }

/-- Atomic events of an interleaved run: one monitor-loop cycle, one
`check_gui_queue` drain tick, or the user clicking the DISMISS ALARM button
(whose Tk `command` calls `dismiss_alarm_thread_safe` directly in the GUI
context, src line 272). -/
inductive Event (π : Type) where
  | probe (r : ProbeResult π)
  | tick
  | userDismiss
deriving DecidableEq

def step (s : SysState π) : Event π → SysState π × Output
  | .probe r =>
      ({ s with
          monitor := (monitorCycle s.gui.alarm_state s.monitor r).1
          queue := s.queue ++ (monitorCycle s.gui.alarm_state s.monitor r).2.queued
          enq_hist := s.enq_hist ++ (monitorCycle s.gui.alarm_state s.monitor r).2.queued },
       (monitorCycle s.gui.alarm_state s.monitor r).2)
  | .tick =>
      ({ s with
          gui := (check_gui_queue s.gui s.queue).1
          queue := []
          app_hist := s.app_hist ++ s.queue },
       ⟨(check_gui_queue s.gui s.queue).2, [], [], []⟩)
  | .userDismiss =>
      ({ s with gui := (dismiss_alarm_thread_safe s.gui).1 },
       ⟨(dismiss_alarm_thread_safe s.gui).2, [], [], []⟩)

/-- Run a trace of events, returning the final state. -/
def runS (s : SysState π) : List (Event π) → SysState π
  | [] => s
  | e :: es => runS (step s e).1 es

/-- Run a trace of events, returning the accumulated outputs. -/
def runOut (s : SysState π) : List (Event π) → Output
  | [] => Output.empty
  | e :: es => ((step s e).2).app (runOut (step s e).1 es)

/-- Which kind of connectivity transition a cycle reported, read off from the
console message it printed. -/
inductive TransitionKind where
  | offlineToOnline
  | onlineToOffline
deriving DecidableEq

def reportOf (o : Output) : Option TransitionKind :=
  if o.displayed = ["Starlink Dish is now ONLINE."] then some .offlineToOnline
  else if o.displayed = ["WARNING: Starlink Dish has gone OFFLINE!"] then
    some .onlineToOffline
  else none

/-- Transitions the spec predicts for a reachability sequence: a report
exactly when the reading differs from the previous one, with the bootstrap
previous value `Offline` (`false`).  This definition follows the words of
the spec (§8 first bullet and the clarification rule), to be compared with
the source-derived `monitorLoop`. -/
def specExpectedReports (prev : Bool) : List Bool → List (Option TransitionKind)
  | [] => []
  | b :: bs =>
      (if b = prev then none
       else if b then some .offlineToOnline else some .onlineToOffline)
        :: specExpectedReports b bs

/-- Number of raise callbacks in a list of queued callbacks. -/
def raisesIn (q : List QueuedCall) : Nat :=
  q.countP fun c => match c with | .showAlarm _ => true | .dismissAlarm => false

/-- Number of simultaneously live alarm surfaces. -/
def surfaces (g : GuiState) : Nat :=
  g.zombie_windows + (if g.alarm_window.isSome then 1 else 0)

/-- Reachability invariant of the GUI globals: no leaked surface, and
`alarm_state` tracks exactly whether a window is referenced. -/
def GuiInv (g : GuiState) : Prop :=
  g.zombie_windows = 0 ∧ g.alarm_state = g.alarm_window.isSome

/-- Payload erasure for the noninterference statement: keep the event shape
and the reachability bit, drop the health payload. -/
def eraseEvent : Event π → Event Unit
  | .probe r => .probe { reachable := r.reachable, payload := none }
  | .tick => .tick
  | .userDismiss => .userDismiss

/-- `true` on every event except a probe that found the dish reachable. -/
def eventOffline : Event π → Bool
  | .probe r => !r.reachable
  | .tick => true
  | .userDismiss => true

/-- Two system states (over possibly different payload types) agree on every
component the health payload could observably influence: the GUI globals, the
queue, both histories, and the previous-connectivity bit — everything except
the stored `dish_status_previous`. -/
def Agrees (s₁ : SysState π₁) (s₂ : SysState π₂) : Prop :=
  s₁.gui = s₂.gui ∧ s₁.queue = s₂.queue ∧ s₁.enq_hist = s₂.enq_hist
    ∧ s₁.app_hist = s₂.app_hist
    ∧ s₁.monitor.dish_online_previous_state = s₂.monitor.dish_online_previous_state

end StarLink

namespace StarLinkSinks

/-- Modelled from the spec: the bodies of `send_email_alert` and
`send_pushbullet_alert` are not present in `src/StarLinkAlert.py` (only
their call sites, e.g. lines 319-320 and 330-331, are).  Per spec §4.4 each
sink invocation "is wrapped so a failure ... is caught, logged, and does not
prevent remaining sinks from running".  The underlying transport is an
`Except` value; the outcome records that the sink was invoked and whether it
delivered, plus its log lines. -/
structure SinkAttempt where
  attempted : Bool
  delivered : Bool
deriving DecidableEq

/-- Modelled from the spec: `send_email_alert(title, body)` — SMTP delivery
wrapped in a catch, failure logged, never propagated. -/
def send_email_alert (transport : Except String Unit) (title _body : String) :
    SinkAttempt × List String :=
  match transport with
  | .ok _ => ({ attempted := true, delivered := true }, [])
  | .error e =>
      ({ attempted := true, delivered := false },
       ["Email alert failed (" ++ title ++ "): " ++ e])

/-- Modelled from the spec: `send_pushbullet_alert(title, body)` — Pushbullet
push wrapped in a catch, failure logged, never propagated. -/
def send_pushbullet_alert (transport : Except String Unit) (title _body : String) :
    SinkAttempt × List String :=
  match transport with
  | .ok _ => ({ attempted := true, delivered := true }, [])
  | .error e =>
      ({ attempted := true, delivered := false },
       ["Pushbullet alert failed (" ++ title ++ "): " ++ e])

/-- One notification event dispatched to both sinks, in the order of the call
sites (email then push), with independently injected transport outcomes. -/
def notify_transition (emailT pushT : Except String Unit)
    (eTitle eBody pTitle pBody : String) :
    (SinkAttempt × SinkAttempt) × List String :=
  (((send_email_alert emailT eTitle eBody).1,
    (send_pushbullet_alert pushT pTitle pBody).1),
   (send_email_alert emailT eTitle eBody).2
     ++ (send_pushbullet_alert pushT pTitle pBody).2)

end StarLinkSinks

namespace StarLinkFetch

/-- Exceptions `requests` can raise at the three points of
`get_dish_status_json`.  All four are subclasses of
`requests.exceptions.RequestException` (`JSONDecodeError` since requests
2.27 doubles as a `RequestException`), hence all are caught by the single
`except` clause of the source. -/
inductive RequestsExc where
  | connectionError
  | timeout
  | httpError (status : Nat)
  | jsonDecodeError
deriving DecidableEq

/-- Abstract outcome of the HTTP GET: transport failure, or a response with
a status code and a body (`some p` if the body parses as JSON to payload
`p`, `none` if `response.json()` would fail). -/
inductive HttpOutcome (π : Type) where
  | connectionError
  | timeout
  | response (status : Nat) (body : Option π)
deriving DecidableEq

/-- `response.raise_for_status()` semantics (requests): raises `HTTPError`
exactly for status codes 400-599, as the source's own comment says
("Raise an HTTPError for bad responses (4xx or 5xx)", src line 130). -/
def raise_for_status (status : Nat) : Except RequestsExc Unit :=
  if 400 ≤ status ∧ status < 600 then .error (.httpError status) else .ok ()

/-- The `try` body of `get_dish_status_json` (src lines 128-131):
`requests.get` (may raise), `raise_for_status` (may raise),
`response.json()` (may raise). -/
def get_dish_status_json_body : HttpOutcome π → Except RequestsExc π
  | .connectionError => .error .connectionError
  | .timeout => .error .timeout
  | .response status body =>
      match raise_for_status status with
      | .error exc => .error exc
      | .ok _ =>
          match body with
          | some p => .ok p
          | none => .error .jsonDecodeError

/-- `get_dish_status_json(ip_address)` (src lines 126-134): the
`except requests.exceptions.RequestException` clause turns every raised
exception into `None`. -/
def get_dish_status_json (o : HttpOutcome π) : Option π :=
  match get_dish_status_json_body o with
  | .ok p => some p
  | .error _ => none

/-- The fetch contract as the amended claim states it: no payload on
transport failure, on an HTTP error status (400-599), or on an unparseable
body; otherwise the parsed body.  Spec-side definition, to be compared with
the source-derived `get_dish_status_json`. -/
def specFetch : HttpOutcome π → Option π
  | .connectionError => none
  | .timeout => none
  | .response status body =>
      if 400 ≤ status ∧ status < 600 then none else body

end StarLinkFetch

namespace StarLink

variable {π π₁ π₂ : Type}

/-- What one cycle reports, and how often each sink is invoked, as a function
of the reachability bit and the previous connectivity alone. -/
lemma monitorCycle_report (a : Bool) (m : MonitorState π) (r : ProbeResult π) :
    reportOf (monitorCycle a m r).2
        = (if r.reachable = m.dish_online_previous_state then none
           else if r.reachable then some TransitionKind.offlineToOnline
           else some TransitionKind.onlineToOffline)
      ∧ (monitorCycle a m r).2.emails.length
          = (if r.reachable = m.dish_online_previous_state then 0 else 1)
      ∧ (monitorCycle a m r).2.pushes.length
          = (if r.reachable = m.dish_online_previous_state then 0 else 1)
      ∧ (monitorCycle a m r).1.dish_online_previous_state = r.reachable := by
  rcases m with ⟨prev, ps⟩
  rcases r with ⟨b, p⟩
  cases b <;> cases prev <;> cases a <;>
    exact ⟨rfl, rfl, rfl, rfl⟩

/-- Reports of an error-free run of the monitor loop, for an arbitrary
starting previous-connectivity value. -/
lemma monitorLoop_ok_reports (m : MonitorState π) (l : List (Bool × ProbeResult π)) :
    ((monitorLoop m (l.map fun x => (x.1, CycleInput.ok x.2))).1).map reportOf
        = specExpectedReports m.dish_online_previous_state (l.map fun x => x.2.reachable)
      ∧ ((monitorLoop m (l.map fun x => (x.1, CycleInput.ok x.2))).1).map
            (fun o => (o.emails.length, o.pushes.length))
        = (specExpectedReports m.dish_online_previous_state
            (l.map fun x => x.2.reachable)).map
            (fun t => if t.isSome then (1, 1) else (0, 0)) := by
  induction l generalizing m with
  | nil => simp [monitorLoop, specExpectedReports]
  | cons x xs ih =>
    obtain ⟨h1, h2, h3, h4⟩ := monitorCycle_report x.1 m x.2
    obtain ⟨ih1, ih2⟩ := ih (monitorCycle x.1 m x.2).1
    rw [h4] at ih1 ih2
    by_cases hbp : x.2.reachable = m.dish_online_previous_state <;>
      cases hb : x.2.reachable <;>
        simp_all [monitorLoop, specExpectedReports]

/-- C1: for every sequence of probe outcomes (each cycle reading an arbitrary
value of the `alarm_state` global), the monitor loop reports a transition —
console message plus one email-sink and one push-sink invocation — exactly
when the connectivity computed from the current probe differs from the
previously computed connectivity, where the previous connectivity starts out
as Offline (`dish_online_previous_state = False`): a first Offline reading
reports nothing, a first Online reading is reported as OfflineToOnline. -/
theorem C1_transition_report_iff (π : Type) (l : List (Bool × ProbeResult π)) :
    ((monitorLoop (initMonitor π) (l.map fun x => (x.1, CycleInput.ok x.2))).1).map reportOf
        = specExpectedReports false (l.map fun x => x.2.reachable)
      ∧ ((monitorLoop (initMonitor π) (l.map fun x => (x.1, CycleInput.ok x.2))).1).map
            (fun o => (o.emails.length, o.pushes.length))
        = (specExpectedReports false (l.map fun x => x.2.reachable)).map
            (fun t => if t.isSome then (1, 1) else (0, 0)) :=
  monitorLoop_ok_reports (initMonitor π) l

/-- `applyCall` preserves the GUI reachability invariant. -/
lemma applyCall_inv {g : GuiState} (h : GuiInv g) (c : QueuedCall) :
    GuiInv (applyCall g c).1 := by
  rcases g with ⟨w, a, f, z⟩
  obtain ⟨hz, ha⟩ := h
  cases c with
  | showAlarm msg =>
    cases a <;>
      simp_all [applyCall, show_visual_alarm_thread_safe, GuiInv]
  | dismissAlarm =>
    simp_all [applyCall, dismiss_alarm_thread_safe, GuiInv]

/-- Draining the queue preserves the GUI reachability invariant. -/
lemma check_gui_queue_inv {g : GuiState} (h : GuiInv g) (q : List QueuedCall) :
    GuiInv (check_gui_queue g q).1 := by
  induction q generalizing g with
  | nil => exact h
  | cons c rest ih => exact ih (applyCall_inv h c)

/-- Every event preserves the GUI reachability invariant. -/
lemma step_inv {s : SysState π} (h : GuiInv s.gui) (e : Event π) :
    GuiInv ((step s e).1).gui := by
  cases e with
  | probe r => exact h
  | tick => exact check_gui_queue_inv h s.queue
  | userDismiss =>
    obtain ⟨hz, ha⟩ := h
    exact ⟨hz, rfl⟩

/-- The GUI reachability invariant holds along every run from the initial
state. -/
lemma runS_inv (s : SysState π) (h : GuiInv s.gui) (es : List (Event π)) :
    GuiInv ((runS s es)).gui := by
  induction es generalizing s with
  | nil => exact h
  | cons e es ih => exact ih _ (step_inv h e)

/-- While `alarm_state` is set, no probe cycle ever enqueues a raise
callback. -/
lemma monitorCycle_no_raise_when_raised (m : MonitorState π) (r : ProbeResult π) :
    raisesIn (monitorCycle true m r).2.queued = 0 := by
  rcases m with ⟨prev, ps⟩
  rcases r with ⟨b, p⟩
  cases b <;> cases prev <;> rfl

/-- C2: along every interleaving of monitor cycles, drain ticks and user
dismissals, at most one alarm surface is ever live (no leaked Toplevel, so
being Raised never stacks a second surface), and while the alert is Raised
(`alarm_state` set) a probe cycle — in particular a repeated
OnlineToOffline transition — enqueues zero raise callbacks. -/
theorem C2_at_most_one_raised (π : Type) (es : List (Event π)) :
    surfaces (runS (initSys π) es).gui ≤ 1
      ∧ ((runS (initSys π) es).gui.alarm_state = true →
          ∀ r : ProbeResult π,
            raisesIn (monitorCycle (runS (initSys π) es).gui.alarm_state
              (runS (initSys π) es).monitor r).2.queued = 0) := by
  obtain ⟨hz, ha⟩ := runS_inv (initSys π) ⟨rfl, rfl⟩ es
  constructor
  · cases hw : (runS (initSys π) es).gui.alarm_window <;>
      simp [surfaces, hz, hw]
  · intro h r
    rw [h]
    exact monitorCycle_no_raise_when_raised _ r

/-- Witness for C2 at the concrete trace online, offline, drain (which
reaches the Raised state) and the probe Offline again. -/
theorem C2_at_most_one_raised_witness :
    surfaces (runS (initSys Unit)
        [Event.probe ⟨true, none⟩, Event.probe ⟨false, none⟩, Event.tick]).gui ≤ 1
      ∧ raisesIn (monitorCycle (runS (initSys Unit)
            [Event.probe ⟨true, none⟩, Event.probe ⟨false, none⟩, Event.tick]).gui.alarm_state
          (runS (initSys Unit)
            [Event.probe ⟨true, none⟩, Event.probe ⟨false, none⟩, Event.tick]).monitor
          ⟨false, none⟩).2.queued = 0 :=
  ⟨(C2_at_most_one_raised Unit
      [Event.probe ⟨true, none⟩, Event.probe ⟨false, none⟩, Event.tick]).1,
   (C2_at_most_one_raised Unit
      [Event.probe ⟨true, none⟩, Event.probe ⟨false, none⟩, Event.tick]).2
     (by decide) ⟨false, none⟩⟩

/-- Each event preserves the history equation: everything ever enqueued is
everything already applied followed by what is still pending. -/
lemma step_hist {s : SysState π} (h : s.enq_hist = s.app_hist ++ s.queue)
    (e : Event π) :
    (step s e).1.enq_hist = (step s e).1.app_hist ++ (step s e).1.queue := by
  cases e with
  | probe r => simp [step, h]
  | tick => simp [step, h]
  | userDismiss => simpa [step] using h

/-- The history equation holds along every run. -/
lemma runS_hist (s : SysState π) (h : s.enq_hist = s.app_hist ++ s.queue)
    (es : List (Event π)) :
    (runS s es).enq_hist = (runS s es).app_hist ++ (runS s es).queue := by
  induction es generalizing s with
  | nil => exact h
  | cons e es ih => exact ih _ (step_hist h e)

lemma runS_append (s : SysState π) (es es' : List (Event π)) :
    runS s (es ++ es') = runS (runS s es) es' := by
  induction es generalizing s with
  | nil => rfl
  | cons e es ih => simpa [runS] using ih (step s e).1

/-- C5: along every run, the sequence of callbacks the GUI context has
applied, followed by the callbacks still pending on `gui_queue`, equals — in
order — the sequence of callbacks the monitor thread ever enqueued; so the
consumer applies commands in exact FIFO enqueue order, never applies one
twice, and a drain tick applies every pending command (none is silently
dropped, and a lower enqueued after a raise is applied after it). -/
theorem C5_fifo_exactly_once (π : Type) (es : List (Event π)) :
    (runS (initSys π) es).enq_hist
        = (runS (initSys π) es).app_hist ++ (runS (initSys π) es).queue
      ∧ (runS (initSys π) (es ++ [Event.tick])).queue = []
      ∧ (runS (initSys π) (es ++ [Event.tick])).app_hist
          = (runS (initSys π) es).app_hist ++ (runS (initSys π) es).queue := by
  refine ⟨runS_hist (initSys π) rfl es, ?_, ?_⟩ <;> rw [runS_append] <;> rfl

/-- C6: applying a raise callback while the alert is already Raised is a
no-op (state and outputs), and applying the dismiss callback while the alert
is already Idle (no `alarm_state`, no window) leaves the GUI state — alert
state and alarm window included — unchanged. -/
theorem C6_idempotent_commands (g : GuiState) (msg : String) :
    (g.alarm_state = true → show_visual_alarm_thread_safe msg g = (g, []))
      ∧ (g.alarm_state = false → g.alarm_window = none →
          (dismiss_alarm_thread_safe g).1 = g) := by
  constructor
  · intro h
    simp [show_visual_alarm_thread_safe, h]
  · intro h1 h2
    rcases g with ⟨w, a, f, z⟩
    simp_all [dismiss_alarm_thread_safe]

/-- Witness for C6 at a concrete Raised state and the concrete Idle state. -/
theorem C6_idempotent_commands_witness :
    show_visual_alarm_thread_safe "X" ⟨some "m", true, 0, 0⟩ = (⟨some "m", true, 0, 0⟩, [])
      ∧ (dismiss_alarm_thread_safe ⟨none, false, 0, 0⟩).1 = ⟨none, false, 0, 0⟩ :=
  ⟨(C6_idempotent_commands ⟨some "m", true, 0, 0⟩ "X").1 rfl,
   (C6_idempotent_commands ⟨none, false, 0, 0⟩ "X").2 rfl rfl⟩

/-- C3 counterexample: an unexpected failure in the first cycle is reported,
but the Online probe supplied for the second cycle is never processed — the
`except` block sits outside `while True`, so the handler output is the run's
last output and the loop does not continue, contradicting the claim that no
such failure terminates monitoring. -/
theorem C3_counterexample_loop_terminates :
    (monitorLoop (initMonitor Unit)
        [(false, CycleInput.err "boom"), (false, CycleInput.ok ⟨true, none⟩)]).1
      = [errorHandler false "boom"]
      ∧ (monitorLoop (initMonitor Unit)
          [(false, CycleInput.err "boom"), (false, CycleInput.ok ⟨true, none⟩)]).1.length
        = 1 :=
  ⟨rfl, rfl⟩

/-- C3 amended: an unexpected failure inside a poll cycle is reported exactly
once — one email-sink call, one push-sink call, and (when no alert is active)
one raise callback for an error alert — after which monitoring terminates:
whatever inputs follow the failing cycle, the run's outputs are exactly the
outputs of the error-free preceding cycles followed by the single handler
report. -/
theorem C3_error_reported_once_then_exit (π : Type) (m : MonitorState π)
    (pre : List (Bool × ProbeResult π)) (a : Bool) (e : String)
    (rest : List (Bool × CycleInput π)) :
    (monitorLoop m ((pre.map fun x => (x.1, CycleInput.ok x.2))
        ++ (a, CycleInput.err e) :: rest)).1
      = (monitorLoop m (pre.map fun x => (x.1, CycleInput.ok x.2))).1
          ++ [errorHandler a e]
      ∧ (errorHandler a e).emails.length = 1
      ∧ (errorHandler a e).pushes.length = 1
      ∧ (errorHandler a e).queued
          = (if a then [] else [QueuedCall.showAlarm ("MONITOR ERROR: " ++ e)]) := by
  refine ⟨?_, rfl, rfl, rfl⟩
  induction pre generalizing m with
  | nil => rfl
  | cons x xs ih =>
    obtain ⟨xa, xr⟩ := x
    simp [monitorLoop, ih]

/-- C7 counterexample: run Online, Offline, drain — the alert is Raised —
then a user dismiss followed by the very next probe reading Offline again
and a drain.  The alert does not return to Raised (it stays Idle) and no
second raise callback is ever enqueued: the run's whole enqueue history
still holds exactly one raise.  This contradicts the claim that the alert
returns to Raised exactly once. -/
theorem C7_counterexample_no_return_to_raised :
    (runS (initSys Unit) [Event.probe ⟨true, none⟩, Event.probe ⟨false, none⟩,
        Event.tick]).gui.alarm_state = true
      ∧ (runS (initSys Unit) [Event.probe ⟨true, none⟩, Event.probe ⟨false, none⟩,
          Event.tick, Event.userDismiss, Event.probe ⟨false, none⟩,
          Event.tick]).gui.alarm_state = false
      ∧ raisesIn (runS (initSys Unit) [Event.probe ⟨true, none⟩,
          Event.probe ⟨false, none⟩, Event.tick, Event.userDismiss,
          Event.probe ⟨false, none⟩, Event.tick]).enq_hist = 1 := by
  refine ⟨by decide, by decide, by decide⟩

/-- Draining a queue that holds no raise callback cannot raise the alert:
from a dismissed GUI state it stays dismissed. -/
lemma check_gui_queue_no_raise {g : GuiState} (q : List QueuedCall)
    (hq : raisesIn q = 0) (ha : g.alarm_state = false)
    (hw : g.alarm_window = none) :
    (check_gui_queue g q).1.alarm_state = false
      ∧ (check_gui_queue g q).1.alarm_window = none := by
  induction q generalizing g with
  | nil => exact ⟨ha, hw⟩
  | cons c rest ih =>
    cases c with
    | showAlarm msg => simp [raisesIn] at hq
    | dismissAlarm =>
      have hq' : raisesIn rest = 0 := by simpa [raisesIn] using hq
      exact ih hq' (g := (applyCall g .dismissAlarm).1) rfl rfl

/-- C7 amended: if a user dismiss arrives while the previous computed
connectivity is Offline (as it is whenever the alert was raised by an
OnlineToOffline transition) and the very next probe reads Offline again,
then no transition is detected: the probe cycle enqueues nothing, and after
the next drain the alert is still Idle — it does not return to Raised. -/
theorem C7_dismiss_then_offline_stays_idle (π : Type) (s : SysState π)
    (p : Option π)
    (hprev : s.monitor.dish_online_previous_state = false)
    (hq : raisesIn s.queue = 0) :
    ((step (step s Event.userDismiss).1 (Event.probe ⟨false, p⟩)).1.enq_hist
        = s.enq_hist)
      ∧ (step (step (step s Event.userDismiss).1
          (Event.probe ⟨false, p⟩)).1 Event.tick).1.gui.alarm_state = false
      ∧ (step (step (step s Event.userDismiss).1
          (Event.probe ⟨false, p⟩)).1 Event.tick).1.gui.alarm_window = none := by
  refine ⟨?_, ?_⟩
  · simp [step, dismiss_alarm_thread_safe, monitorCycle, hprev, Output.empty]
  · have hdrain := check_gui_queue_no_raise
      (g := (step (step s Event.userDismiss).1 (Event.probe ⟨false, p⟩)).1.gui)
      ((step (step s Event.userDismiss).1 (Event.probe ⟨false, p⟩)).1.queue) ?_ ?_ ?_
    · exact hdrain
    · simpa [step, dismiss_alarm_thread_safe, monitorCycle, hprev, Output.empty] using hq
    · simp [step, dismiss_alarm_thread_safe, monitorCycle, hprev, Output.empty]
    · simp [step, dismiss_alarm_thread_safe, monitorCycle, hprev, Output.empty]

/-- Witness for C7 (amended) at the concrete Raised-then-dismissed state. -/
theorem C7_dismiss_then_offline_stays_idle_witness :
    ((step (step (runS (initSys Unit) [Event.probe ⟨true, none⟩,
          Event.probe ⟨false, none⟩, Event.tick]) Event.userDismiss).1
        (Event.probe ⟨false, (none : Option Unit)⟩)).1.enq_hist
      = (runS (initSys Unit) [Event.probe ⟨true, none⟩,
          Event.probe ⟨false, none⟩, Event.tick]).enq_hist)
      ∧ (step (step (step (runS (initSys Unit) [Event.probe ⟨true, none⟩,
            Event.probe ⟨false, none⟩, Event.tick]) Event.userDismiss).1
          (Event.probe ⟨false, (none : Option Unit)⟩)).1
            Event.tick).1.gui.alarm_state = false
      ∧ (step (step (step (runS (initSys Unit) [Event.probe ⟨true, none⟩,
            Event.probe ⟨false, none⟩, Event.tick]) Event.userDismiss).1
          (Event.probe ⟨false, (none : Option Unit)⟩)).1
            Event.tick).1.gui.alarm_window = none :=
  C7_dismiss_then_offline_stays_idle Unit
    (runS (initSys Unit) [Event.probe ⟨true, none⟩,
      Event.probe ⟨false, none⟩, Event.tick]) none (by decide) (by decide)

/-- A probe cycle's output and its next previous-connectivity bit depend only
on the `alarm_state` read, the previous connectivity, and the reachability
bit — not on the fetched payload. -/
lemma monitorCycle_payload_irrelevant (a : Bool)
    {m₁ : MonitorState π₁} {m₂ : MonitorState π₂}
    (hm : m₁.dish_online_previous_state = m₂.dish_online_previous_state)
    {r₁ : ProbeResult π₁} {r₂ : ProbeResult π₂}
    (hr : r₁.reachable = r₂.reachable) :
    (monitorCycle a m₁ r₁).2 = (monitorCycle a m₂ r₂).2
      ∧ (monitorCycle a m₁ r₁).1.dish_online_previous_state
          = (monitorCycle a m₂ r₂).1.dish_online_previous_state := by
  constructor <;> simp [monitorCycle, hm, hr]

/-- One step on payload-agreeing states with payload-erased-equal events
yields payload-agreeing states and identical outputs. -/
lemma step_agrees (e₁ : Event π₁) (e₂ : Event π₂)
    (he : eraseEvent e₁ = eraseEvent e₂)
    {s₁ : SysState π₁} {s₂ : SysState π₂} (hs : Agrees s₁ s₂) :
    Agrees (step s₁ e₁).1 (step s₂ e₂).1 ∧ (step s₁ e₁).2 = (step s₂ e₂).2 := by
  obtain ⟨hg, hq, henq, happ, hm⟩ := hs
  cases e₁ <;> cases e₂ <;> simp [eraseEvent] at he
  case probe.probe r₁ r₂ =>
    have ha : s₁.gui.alarm_state = s₂.gui.alarm_state := by rw [hg]
    obtain ⟨hout, hprev⟩ := monitorCycle_payload_irrelevant s₁.gui.alarm_state hm he
    rw [ha] at hout hprev
    refine ⟨⟨hg, ?_, ?_, happ, ?_⟩, ?_⟩ <;>
      simp [step, hq, henq, ha, hout, hprev]
  case tick.tick =>
    exact ⟨⟨by simp [step, hg, hq], rfl, henq, by simp [step, happ, hq],
      by simpa [step] using hm⟩, by simp [step, hg, hq]⟩
  case userDismiss.userDismiss =>
    exact ⟨⟨by simp [step, hg], hq, henq, happ, by simpa [step] using hm⟩,
      by simp [step, hg]⟩

/-- Runs of payload-erased-equal event traces from payload-agreeing states
agree on the final state and produce identical outputs. -/
lemma runS_agrees {s₁ : SysState π₁} {s₂ : SysState π₂} (hs : Agrees s₁ s₂)
    (es₁ : List (Event π₁)) (es₂ : List (Event π₂))
    (he : es₁.map eraseEvent = es₂.map eraseEvent) :
    Agrees (runS s₁ es₁) (runS s₂ es₂) ∧ runOut s₁ es₁ = runOut s₂ es₂ := by
  induction es₁ generalizing s₁ s₂ es₂ with
  | nil =>
    cases es₂ with
    | nil => exact ⟨hs, rfl⟩
    | cons _ _ => simp at he
  | cons e es ih =>
    cases es₂ with
    | nil => simp at he
    | cons e₂ es₂' =>
      simp only [List.map_cons, List.cons.injEq] at he
      obtain ⟨he1, he2⟩ := he
      obtain ⟨hstep, hout⟩ := step_agrees e e₂ he1 hs
      obtain ⟨hrun, houts⟩ := ih hstep es₂' he2
      exact ⟨hrun, by simp [runOut, hout, houts]⟩

/-- C9: the fetched health payload never influences observable behaviour.
Two runs whose event traces agree after erasing payloads (same event kinds,
same reachability bits, arbitrary payloads — even over different payload
types) produce identical outputs (console messages, sink invocations),
identical GUI state, identical pending queue, and identical
enqueue and apply histories. -/
theorem C9_payload_noninterference (π₁ π₂ : Type)
    (es₁ : List (Event π₁)) (es₂ : List (Event π₂))
    (he : es₁.map eraseEvent = es₂.map eraseEvent) :
    runOut (initSys π₁) es₁ = runOut (initSys π₂) es₂
      ∧ (runS (initSys π₁) es₁).gui = (runS (initSys π₂) es₂).gui
      ∧ (runS (initSys π₁) es₁).queue = (runS (initSys π₂) es₂).queue
      ∧ (runS (initSys π₁) es₁).enq_hist = (runS (initSys π₂) es₂).enq_hist
      ∧ (runS (initSys π₁) es₁).app_hist = (runS (initSys π₂) es₂).app_hist := by
  obtain ⟨⟨hg, hq, henq, happ, hm⟩, hout⟩ :=
    runS_agrees
      (show Agrees (initSys π₁) (initSys π₂) from ⟨rfl, rfl, rfl, rfl, rfl⟩)
      es₁ es₂ he
  exact ⟨hout, hg, hq, henq, happ⟩

/-- Witness for C9 at two concrete traces that agree on reachability but not
on the fetched payloads. -/
theorem C9_payload_noninterference_witness :
    runOut (initSys Nat) [Event.probe ⟨true, some 3⟩, Event.probe ⟨false, some 4⟩,
        Event.tick]
      = runOut (initSys Nat) [Event.probe ⟨true, none⟩, Event.probe ⟨false, some 9⟩,
        Event.tick]
      ∧ (runS (initSys Nat) [Event.probe ⟨true, some 3⟩, Event.probe ⟨false, some 4⟩,
          Event.tick]).gui
        = (runS (initSys Nat) [Event.probe ⟨true, none⟩, Event.probe ⟨false, some 9⟩,
          Event.tick]).gui
      ∧ (runS (initSys Nat) [Event.probe ⟨true, some 3⟩, Event.probe ⟨false, some 4⟩,
          Event.tick]).queue
        = (runS (initSys Nat) [Event.probe ⟨true, none⟩, Event.probe ⟨false, some 9⟩,
          Event.tick]).queue
      ∧ (runS (initSys Nat) [Event.probe ⟨true, some 3⟩, Event.probe ⟨false, some 4⟩,
          Event.tick]).enq_hist
        = (runS (initSys Nat) [Event.probe ⟨true, none⟩, Event.probe ⟨false, some 9⟩,
          Event.tick]).enq_hist
      ∧ (runS (initSys Nat) [Event.probe ⟨true, some 3⟩, Event.probe ⟨false, some 4⟩,
          Event.tick]).app_hist
        = (runS (initSys Nat) [Event.probe ⟨true, none⟩, Event.probe ⟨false, some 9⟩,
          Event.tick]).app_hist :=
  C9_payload_noninterference Nat Nat
    [Event.probe ⟨true, some 3⟩, Event.probe ⟨false, some 4⟩, Event.tick]
    [Event.probe ⟨true, none⟩, Event.probe ⟨false, some 9⟩, Event.tick] rfl

/-- A probe that reads Offline while the previous connectivity is Offline
produces no output at all and leaves the previous connectivity Offline. -/
lemma monitorCycle_still_offline (a : Bool) {m : MonitorState π}
    {r : ProbeResult π} (hm : m.dish_online_previous_state = false)
    (hr : r.reachable = false) :
    (monitorCycle a m r).2 = Output.empty
      ∧ (monitorCycle a m r).1.dish_online_previous_state = false := by
  constructor <;> simp [monitorCycle, hm, hr]

/-- Along a run in which no probe ever reads Online, the system stays quiet:
previous connectivity Offline, alert Idle, no window, empty queue, nothing
ever enqueued, no sink invocations. -/
lemma quiet_run {s : SysState π} (es : List (Event π))
    (h1 : s.monitor.dish_online_previous_state = false)
    (h2 : s.gui.alarm_state = false) (h3 : s.gui.alarm_window = none)
    (h4 : s.queue = []) (h5 : s.enq_hist = [])
    (hall : es.all eventOffline = true) :
    (runS s es).monitor.dish_online_previous_state = false
      ∧ (runS s es).gui.alarm_state = false
      ∧ (runS s es).gui.alarm_window = none
      ∧ (runS s es).queue = []
      ∧ (runS s es).enq_hist = []
      ∧ (runOut s es).emails = [] ∧ (runOut s es).pushes = [] := by
  induction es generalizing s with
  | nil => exact ⟨h1, h2, h3, h4, h5, rfl, rfl⟩
  | cons e es ih =>
    simp only [List.all_cons, Bool.and_eq_true] at hall
    obtain ⟨he, hall'⟩ := hall
    cases e with
    | probe r =>
      have hr : r.reachable = false := by simpa [eventOffline] using he
      obtain ⟨hout, hprev⟩ := monitorCycle_still_offline s.gui.alarm_state h1 hr
      have := ih (s := (step s (Event.probe r)).1)
        (by simpa [step] using hprev) (by simpa [step] using h2)
        (by simpa [step] using h3)
        (by simp [step, hout, h4, Output.empty])
        (by simp [step, hout, h5, Output.empty]) hall'
      simpa [runS, runOut, step, hout, Output.empty, Output.app, this] using this
    | tick =>
      have := ih (s := (step s Event.tick).1)
        (by simpa [step] using h1)
        (by simp [step, h4, check_gui_queue, h2])
        (by simp [step, h4, check_gui_queue, h3])
        (by simp [step]) (by simpa [step] using h5) hall'
      simpa [runS, runOut, step, h4, check_gui_queue, Output.app, this] using this
    | userDismiss =>
      have := ih (s := (step s Event.userDismiss).1)
        (by simpa [step] using h1)
        (by simp [step, dismiss_alarm_thread_safe])
        (by simp [step, dismiss_alarm_thread_safe])
        (by simpa [step] using h4) (by simpa [step] using h5) hall'
      simpa [runS, runOut, step, Output.app, this] using this

/-- C10: if the dish is unreachable on every probe of a run, then over the
whole run no notification sink is ever invoked, no raise callback is ever
enqueued, and the alert stays Idle with no alarm window — the initial
offline condition alone never triggers any alert. -/
theorem C10_all_offline_silent (π : Type) (es : List (Event π))
    (h : es.all eventOffline = true) :
    (runOut (initSys π) es).emails = [] ∧ (runOut (initSys π) es).pushes = []
      ∧ (runS (initSys π) es).gui.alarm_state = false
      ∧ (runS (initSys π) es).gui.alarm_window = none
      ∧ (runS (initSys π) es).enq_hist = [] := by
  obtain ⟨q1, q2, q3, q4, q5, q6, q7⟩ :=
    quiet_run (s := initSys π) es rfl rfl rfl rfl rfl h
  exact ⟨q6, q7, q2, q3, q5⟩

/-- Witness for C10 at a concrete all-offline trace with drains and a stray
user dismiss. -/
theorem C10_all_offline_silent_witness :
    (runOut (initSys Nat) [Event.probe ⟨false, some 7⟩, Event.tick,
        Event.probe ⟨false, none⟩, Event.userDismiss, Event.tick]).emails = []
      ∧ (runOut (initSys Nat) [Event.probe ⟨false, some 7⟩, Event.tick,
          Event.probe ⟨false, none⟩, Event.userDismiss, Event.tick]).pushes = []
      ∧ (runS (initSys Nat) [Event.probe ⟨false, some 7⟩, Event.tick,
          Event.probe ⟨false, none⟩, Event.userDismiss, Event.tick]).gui.alarm_state = false
      ∧ (runS (initSys Nat) [Event.probe ⟨false, some 7⟩, Event.tick,
          Event.probe ⟨false, none⟩, Event.userDismiss, Event.tick]).gui.alarm_window = none
      ∧ (runS (initSys Nat) [Event.probe ⟨false, some 7⟩, Event.tick,
          Event.probe ⟨false, none⟩, Event.userDismiss, Event.tick]).enq_hist = [] :=
  C10_all_offline_silent Nat [Event.probe ⟨false, some 7⟩, Event.tick,
    Event.probe ⟨false, none⟩, Event.userDismiss, Event.tick] rfl

/-- An error-free monitor run executes one cycle per input: no cycle stops
the loop, whatever the probe outcomes. -/
lemma monitorLoop_ok_length (m : MonitorState π) (l : List (Bool × ProbeResult π)) :
    (monitorLoop m (l.map fun x => (x.1, CycleInput.ok x.2))).1.length = l.length := by
  induction l generalizing m with
  | nil => rfl
  | cons x xs ih =>
    obtain ⟨xa, xr⟩ := x
    simp [monitorLoop, ih]

end StarLink

namespace StarLinkSinks

/-- C4: dispatching one notification event invokes the email sink and then
the push sink; the push sink's outcome is identical whether the email
transport succeeded or raised (an email failure is caught inside
`send_email_alert` and cannot prevent the push invocation); and since sink
delivery outcomes never feed back into the monitor loop, the loop still
executes one cycle per probe input.  (Sink bodies modelled from the spec —
they are absent from `src/StarLinkAlert.py`.) -/
theorem C4_sink_failure_isolated (emailT pushT : Except String Unit)
    (eTitle eBody pTitle pBody : String) (π : Type)
    (m : StarLink.MonitorState π) (l : List (Bool × StarLink.ProbeResult π)) :
    (notify_transition emailT pushT eTitle eBody pTitle pBody).1.1.attempted = true
      ∧ (notify_transition emailT pushT eTitle eBody pTitle pBody).1.2.attempted = true
      ∧ (notify_transition emailT pushT eTitle eBody pTitle pBody).1.2
          = (notify_transition (Except.ok ()) pushT eTitle eBody pTitle pBody).1.2
      ∧ (StarLink.monitorLoop m (l.map fun x => (x.1, StarLink.CycleInput.ok x.2))).1.length
          = l.length := by
  refine ⟨?_, ?_, ?_, StarLink.monitorLoop_ok_length m l⟩ <;>
    cases emailT <;> cases pushT <;> rfl

end StarLinkSinks

namespace StarLinkFetch

/-- C8 counterexample: a non-2xx response — HTTP 304 with a body that parses
as JSON — makes `get_dish_status_json` return the payload, not `None`:
`raise_for_status` only raises for status 400-599, so the claim's "non-2xx
status always yields the no-payload value" is false at this input. -/
theorem C8_counterexample_non_error_status :
    get_dish_status_json (HttpOutcome.response 304 (some ())) = some ()
      ∧ ¬(200 ≤ 304 ∧ 304 < 300) :=
  ⟨rfl, by decide⟩

/-- C8 amended: the fetch returns the no-payload value exactly on a
connection failure, a timeout, an HTTP error status (400-599, what
`raise_for_status` raises for), or a body that does not parse as JSON;
a response whose status is outside 400-599 returns its parsed body.  No
outcome propagates an error to the caller: the result is always a plain
optional payload. -/
theorem C8_fetch_never_propagates (π : Type) (o : HttpOutcome π) :
    get_dish_status_json o = specFetch o := by
  cases o with
  | connectionError => rfl
  | timeout => rfl
  | response status body =>
    by_cases h : 400 ≤ status ∧ status < 600
    · simp [get_dish_status_json, get_dish_status_json_body, raise_for_status,
        specFetch, h]
    · cases body <;>
        simp [get_dish_status_json, get_dish_status_json_body, raise_for_status,
          specFetch, h]

end StarLinkFetch
